import Mathlib

/-!
Verification of the Auto-Resolution Gating & Execution Engine.

Shallow embedding of the Python reference implementation:
- src/src/models/incident.py   (Incident, ResolutionStep, response models)
- src/src/models/config.py     (CategoryConfig, AutoResolutionConfig, update request)
- src/src/services/auto_resolution_service.py (gating + execution pipeline)
- src/src/services/config_service.py (policy store, kill switch)

Conventions of the embedding:
- Python floats used for confidence scores/thresholds are modelled as `Rat`
  (they are only compared, never arithmetically combined).
- `datetime.utcnow()` and `uuid4()` draws are modelled by an explicit `World`
  value threaded through the computation (a tick counter and a uuid stream).
- The audit sink is the in-repository reference `AuditService`, whose `log_*`
  methods only append to an in-memory list and cannot raise; its effect is
  modelled as the list of appended `AuditRecord`s.
- The notification sink is injected into the service constructor, so an
  arbitrary conforming implementation may be supplied; its one observable
  behaviour at this boundary (return normally, or raise with some message)
  is modelled by `NotificationSink.notifyExc`.
- The opaque per-step remediation action (`_execute_step`) may raise; its
  behaviour is modelled by a function from the step's position in the
  current call to `Option String` (`none` = normal return, `some e` =
  exception with message `e`).
-/

/-- `IncidentStatus` from src/src/models/incident.py. -/
inductive IncidentStatus where
  | open_
  | in_progress
  | auto_resolved
  | manually_resolved
  | closed
deriving DecidableEq

/-- `IncidentCategory` from src/src/models/incident.py. -/
inductive IncidentCategory where
  | network
  | database
  | application
  | security
  | infrastructure
  | user_access
  | ios_upgrade
deriving DecidableEq

/-- `IncidentPriority` from src/src/models/incident.py. -/
inductive IncidentPriority where
  | low
  | medium
  | high
  | critical
deriving DecidableEq

/-- `IncidentType` from src/src/models/incident.py (optional field on Incident). -/
inductive IncidentType where
  | performance
  | security
  | availability
  | configuration
  | capacity
  | connectivity
deriving DecidableEq

/-- `IncidentSource` from src/src/models/incident.py (optional field on Incident). -/
inductive IncidentSource where
  | server_logs
  | application_logs
  | network_metrics
  | system_metrics
  | security_alerts
  | custom_alerts
deriving DecidableEq

/-- The `.value` string of an `IncidentStatus` member. -/
def IncidentStatus.toValue : IncidentStatus → String
  | .open_ => "open"
  | .in_progress => "in_progress"
  | .auto_resolved => "auto_resolved"
  | .manually_resolved => "manually_resolved"
  | .closed => "closed"

/-- The `.value` string of an `IncidentCategory` member. -/
def IncidentCategory.toValue : IncidentCategory → String
  | .network => "network"
  | .database => "database"
  | .application => "application"
  | .security => "security"
  | .infrastructure => "infrastructure"
  | .user_access => "user_access"
  | .ios_upgrade => "ios_upgrade"

/-- `ResolutionStep` from src/src/models/incident.py.  Timestamps are World ticks. -/
structure ResolutionStep where
  step_id : String
  description : String
  action : String
  executed_at : Option Nat := none
  success : Option Bool := none
  error_message : Option String := none
deriving DecidableEq

/-- `Incident` from src/src/models/incident.py. -/
structure Incident where
  incident_id : String
  title : String
  description : String
  category : IncidentCategory
  priority : IncidentPriority
  status : IncidentStatus := .open_
  incident_type : Option IncidentType := none
  source : Option IncidentSource := none
  confidence_score : Rat := Rat.mk' 0 1
  detection_confidence : Rat := Rat.mk' 0 1
  classification_confidence : Rat := Rat.mk' 0 1
  auto_detected : Bool := false
  created_by : String
  created_at : Nat := 0
  updated_at : Nat := 0
  detected_at : Option Nat := none
  resolved_at : Option Nat := none
  resolution_steps : List ResolutionStep := []
  auto_resolved : Bool := false
  tags : List String := []
deriving DecidableEq

/-- `IncidentResolutionResponse` from src/src/models/incident.py. -/
structure IncidentResolutionResponse where
  incident_id : String
  success : Bool
  message : String
  resolution_steps : List ResolutionStep
  resolved_at : Option Nat := none
deriving DecidableEq

/-- `CategoryConfig` from src/src/models/config.py. -/
structure CategoryConfig where
  category : IncidentCategory
  auto_resolution_enabled : Bool := true
  confidence_threshold : Rat := Rat.mk' 9 10
  max_retry_attempts : Nat := 3
  notification_required : Bool := true
deriving DecidableEq

/-- The pydantic `validator` `validate_threshold` on `CategoryConfig`
(src/src/models/config.py lines 17-22): a threshold below 0.5 is rejected. -/
def CategoryConfig.validate_threshold (v : Rat) : Prop := ¬ v < Rat.mk' 1 2

instance (v : Rat) : Decidable (CategoryConfig.validate_threshold v) := by
  unfold CategoryConfig.validate_threshold
  infer_instance

/-- Pydantic field constraints plus the validator on `CategoryConfig`: this is
the condition under which a `CategoryConfig` value can be constructed at all
(`confidence_threshold` has `ge=0.0, le=1.0`, `max_retry_attempts` has
`ge=0, le=10`, and `validate_threshold` requires at least 0.5). -/
def CategoryConfig.constructible (cc : CategoryConfig) : Prop :=
  0 ≤ cc.confidence_threshold ∧ cc.confidence_threshold ≤ 1 ∧
  CategoryConfig.validate_threshold cc.confidence_threshold ∧
  cc.max_retry_attempts ≤ 10

instance (cc : CategoryConfig) : Decidable cc.constructible := by
  unfold CategoryConfig.constructible
  infer_instance

/-- `AutoResolutionConfig` from src/src/models/config.py.  The Python
`Dict[IncidentCategory, CategoryConfig]` is modelled as an association list
in insertion order. -/
structure AutoResolutionConfig where
  global_enabled : Bool := true
  default_confidence_threshold : Rat := Rat.mk' 9 10
  category_configs : List (IncidentCategory × CategoryConfig) := []
  max_concurrent_resolutions : Nat := 10
  notification_recipients : List String := []
deriving DecidableEq

/-- Dict membership/lookup (`category in self.category_configs` /
`self.category_configs[category]`). -/
def lookupCategory (m : List (IncidentCategory × CategoryConfig))
    (cat : IncidentCategory) : Option CategoryConfig :=
  match m with
  | [] => none
  | (c, cc) :: rest => if c = cat then some cc else lookupCategory rest cat

/-- Dict assignment `self.category_configs[category] = cc`: replace in place
if present, append otherwise. -/
def insertCategory (m : List (IncidentCategory × CategoryConfig))
    (cat : IncidentCategory) (cc : CategoryConfig) :
    List (IncidentCategory × CategoryConfig) :=
  match m with
  | [] => [(cat, cc)]
  | (c, old) :: rest =>
      if c = cat then (c, cc) :: rest else (c, old) :: insertCategory rest cat cc

/-- `AutoResolutionConfig.is_enabled_for_category`
(src/src/models/config.py lines 33-41). -/
def AutoResolutionConfig.is_enabled_for_category (config : AutoResolutionConfig)
    (category : IncidentCategory) : Bool :=
  if !config.global_enabled then false
  else
    match lookupCategory config.category_configs category with
    | some cc => cc.auto_resolution_enabled
    | none => true

/-- `AutoResolutionConfig.get_confidence_threshold`
(src/src/models/config.py lines 43-48). -/
def AutoResolutionConfig.get_confidence_threshold (config : AutoResolutionConfig)
    (category : IncidentCategory) : Rat :=
  match lookupCategory config.category_configs category with
  | some cc => cc.confidence_threshold
  | none => config.default_confidence_threshold

/-- The membership test `incident.status in [AUTO_RESOLVED, MANUALLY_RESOLVED,
CLOSED]` from src/src/services/auto_resolution_service.py line 53. -/
def isTerminal (st : IncidentStatus) : Bool :=
  match st with
  | .auto_resolved => true
  | .manually_resolved => true
  | .closed => true
  | _ => false

/-- Structured form of the reason string returned by `can_auto_resolve`;
each constructor corresponds to one of the f-strings in
src/src/services/auto_resolution_service.py lines 50-65 and carries the
interpolated data. -/
inductive DenyReason where
  | override_active
  | already_terminal (st : IncidentStatus)
  | category_disabled (cat : IncidentCategory)
  | below_threshold (score threshold : Rat)
  | all_checks_passed
deriving DecidableEq

/-- Rendering of `DenyReason` as the reason message text (percentage
formatting of the two scores is abstracted away). -/
def DenyReason.message : DenyReason → String
  | .override_active => "Auto-resolution is globally disabled (kill switch active)"
  | .already_terminal st => "Incident already in status: " ++ st.toValue
  | .category_disabled cat => "Auto-resolution disabled for category: " ++ cat.toValue
  | .below_threshold _ _ => "Confidence score below threshold"
  | .all_checks_passed => "All checks passed"

/-- `AutoResolutionService.can_auto_resolve`
(src/src/services/auto_resolution_service.py lines 41-65): the gating
evaluator.  A pure function of the policy snapshot and the incident. -/
def can_auto_resolve (config : AutoResolutionConfig) (incident : Incident) :
    Bool × DenyReason :=
  if !config.global_enabled then
    (false, .override_active)
  else if isTerminal incident.status then
    (false, .already_terminal incident.status)
  else if !config.is_enabled_for_category incident.category then
    (false, .category_disabled incident.category)
  else
    let threshold := config.get_confidence_threshold incident.category
    if incident.confidence_score < threshold then
      (false, .below_threshold incident.confidence_score threshold)
    else
      (true, .all_checks_passed)

/-- Claim C1: `can_auto_resolve` evaluates its checks in the fixed precedence
order (1) global flag false → deny OVERRIDE_ACTIVE, (2) terminal status →
deny ALREADY_TERMINAL, (3) category policy disabled → deny CATEGORY_DISABLED,
(4) confidence below the effective threshold → deny BELOW_THRESHOLD,
otherwise allow; in particular a false global flag yields OVERRIDE_ACTIVE
regardless of status, category settings or confidence.  Purity holds by
construction: the embedding is a function of the snapshot and incident only. -/
theorem can_auto_resolve_precedence (config : AutoResolutionConfig)
    (incident : Incident) :
    (config.global_enabled = false →
      can_auto_resolve config incident = (false, DenyReason.override_active))
    ∧ (config.global_enabled = true → isTerminal incident.status = true →
      can_auto_resolve config incident
        = (false, DenyReason.already_terminal incident.status))
    ∧ (config.global_enabled = true → isTerminal incident.status = false →
      config.is_enabled_for_category incident.category = false →
      can_auto_resolve config incident
        = (false, DenyReason.category_disabled incident.category))
    ∧ (config.global_enabled = true → isTerminal incident.status = false →
      config.is_enabled_for_category incident.category = true →
      incident.confidence_score < config.get_confidence_threshold incident.category →
      can_auto_resolve config incident
        = (false, DenyReason.below_threshold incident.confidence_score
            (config.get_confidence_threshold incident.category)))
    ∧ (config.global_enabled = true → isTerminal incident.status = false →
      config.is_enabled_for_category incident.category = true →
      ¬ incident.confidence_score < config.get_confidence_threshold incident.category →
      can_auto_resolve config incident = (true, DenyReason.all_checks_passed)) := by
  refine ⟨?_, ?_, ?_, ?_, ?_⟩
  · intro h1
    simp [can_auto_resolve, h1]
  · intro h1 h2
    simp [can_auto_resolve, h1, h2]
  · intro h1 h2 h3
    simp [can_auto_resolve, h1, h2, h3]
  · intro h1 h2 h3 h4
    simp [can_auto_resolve, h1, h2, h3, h4]
  · intro h1 h2 h3 h4
    simp [can_auto_resolve, h1, h2, h3, h4]

/-- A policy snapshot with the kill switch active (flag false). -/
def sampleDisabledConfig : AutoResolutionConfig :=
  { global_enabled := false }

/-- A policy snapshot with safe defaults and an empty category mapping
(the test fixture of tests/test_auto_resolution_service.py). -/
def sampleDefaultConfig : AutoResolutionConfig :=
  { global_enabled := true, default_confidence_threshold := Rat.mk' 9 10 }

/-- A high-confidence open database incident (INC-001 of the test suite). -/
def sampleIncident : Incident :=
  { incident_id := "INC-001"
    title := "Database connection pool exhausted"
    description := "Application cannot connect to database"
    category := .database
    priority := .high
    status := .open_
    confidence_score := Rat.mk' 19 20
    created_by := "user123" }

/-- Witness for claim C1: the precedence theorem evaluated at concrete inputs,
covering the kill-switch branch, the terminal-status branch and the allow
branch. -/
theorem can_auto_resolve_precedence_witness :
    can_auto_resolve sampleDisabledConfig sampleIncident
      = (false, DenyReason.override_active)
    ∧ can_auto_resolve sampleDefaultConfig
        { sampleIncident with status := .auto_resolved }
      = (false, DenyReason.already_terminal IncidentStatus.auto_resolved)
    ∧ can_auto_resolve sampleDefaultConfig sampleIncident
      = (true, DenyReason.all_checks_passed) :=
  ⟨(can_auto_resolve_precedence sampleDisabledConfig sampleIncident).1 rfl,
   (can_auto_resolve_precedence sampleDefaultConfig
      { sampleIncident with status := .auto_resolved }).2.1 rfl rfl,
   (can_auto_resolve_precedence sampleDefaultConfig sampleIncident).2.2.2.2
      rfl rfl (by decide) (by decide)⟩

/-- Source of `datetime.utcnow()` timestamps and `uuid4()` identifiers: a tick
counter plus an abstract stream of uuid strings, threaded explicitly. -/
structure World where
  tick : Nat
  uuidOf : Nat → String

/-- One `datetime.utcnow()` call. -/
def World.utcnow (w : World) : Nat × World :=
  (w.tick, { w with tick := w.tick + 1 })

/-- One `str(uuid4())` call. -/
def World.uuid4 (w : World) : String × World :=
  (w.uuidOf w.tick, { w with tick := w.tick + 1 })

/-- `AuditAction` members used by this engine (src/src/models/audit.py). -/
inductive AuditAction where
  | auto_resolution_attempted
  | auto_resolution_success
  | auto_resolution_failed
  | auto_resolution_skipped
  | notification_sent
  | kill_switch_activated
  | kill_switch_deactivated
  | config_updated
deriving DecidableEq

/-- One entry appended to the reference `AuditService` log
(src/src/services/audit_service.py, `log_entry`).  The `details` dict is
abstracted down to the reason string it carries for skipped records. -/
structure AuditRecord where
  incident_id : String
  action : AuditAction
  confidence_score : Option Rat := none
  success : Bool := true
  error_message : Option String := none
  actor : String := "system"
  reason : Option String := none
deriving DecidableEq

/-- The behaviour a caller-supplied notification sink exhibits at the
`notify_auto_resolution` boundary: return normally (`none`) or raise an
exception rendered as `some message`.  The in-repository reference
`NotificationService` always returns normally. -/
structure NotificationSink where
  notifyExc : Option String := none

/-- `AutoResolutionService._get_resolution_steps_for_category`
(src/src/services/auto_resolution_service.py lines 195-225): the static
category→steps table; categories with no entry get one generic health check.
Each entry is a (description, action) pair. -/
def get_resolution_steps_for_category (category : IncidentCategory) :
    List (String × String) :=
  match category with
  | .network =>
      [("Check network connectivity", "ping_check"),
       ("Restart network service", "service_restart"),
       ("Verify resolution", "health_check")]
  | .database =>
      [("Check database connections", "connection_check"),
       ("Clear connection pool", "pool_clear"),
       ("Verify database health", "health_check")]
  | .application =>
      [("Check application logs", "log_check"),
       ("Restart application service", "service_restart"),
       ("Verify application health", "health_check")]
  | .ios_upgrade =>
      [("Check iOS version compatibility", "ios_version_check"),
       ("Verify app bundle and provisioning profiles", "bundle_verification"),
       ("Clear derived data and build cache", "cache_clear"),
       ("Validate API compatibility with iOS version", "api_compatibility_check"),
       ("Run automated iOS build test", "build_test")]
  | _ => [("Generic health check", "health_check")]

/-- The per-step loop of `AutoResolutionService._execute_resolution_steps`
(src/src/services/auto_resolution_service.py lines 170-191).  `beh k` is the
outcome of invoking the opaque action of the k-th step of this call: `none`
for a normal return, `some e` for an exception with message `e`.  Either way
the step gets an execution timestamp and a definite outcome, and the loop
continues. -/
def execute_steps_loop (beh : Nat → Option String) :
    List (String × String) → Nat → World → List ResolutionStep × World
  | [], _, w => ([], w)
  | (desc, act) :: rest, k, w =>
      let idw := w.uuid4
      let tw := idw.2.utcnow
      let step : ResolutionStep :=
        match beh k with
        | none =>
            { step_id := idw.1, description := desc, action := act,
              executed_at := some tw.1, success := some true,
              error_message := none }
        | some e =>
            { step_id := idw.1, description := desc, action := act,
              executed_at := some tw.1, success := some false,
              error_message := some e }
      let restw := execute_steps_loop beh rest (k + 1) tw.2
      (step :: restw.1, restw.2)

/-- `AutoResolutionService._execute_resolution_steps`
(src/src/services/auto_resolution_service.py lines 154-193). -/
def execute_resolution_steps (beh : Nat → Option String) (incident : Incident)
    (w : World) : List ResolutionStep × World :=
  execute_steps_loop beh (get_resolution_steps_for_category incident.category) 0 w

/-- Everything `resolve_incident` produces: the response returned to the
caller, the incident object after the call (the Python code mutates it in
place), the audit records appended during the call, the notifications pushed
through the sink, and the final world. -/
structure ResolveOut where
  response : IncidentResolutionResponse
  incident : Incident
  audit : List AuditRecord
  notified : List String
  world : World

/-- `AutoResolutionService.resolve_incident`
(src/src/services/auto_resolution_service.py lines 67-152).  Control flow:
attempt audit; gate; on deny emit a skipped audit and return a failure
response leaving the incident untouched; on allow run the steps, mutate the
incident, emit a success audit, notify, and return success — any exception
raised inside that try block (here: a raising notification sink) is caught
once, audited as failed, and turned into a failure response. -/
def resolve_incident (config : AutoResolutionConfig) (notif : NotificationSink)
    (beh : Nat → Option String) (incident : Incident) (w : World) : ResolveOut :=
  let attemptRec : AuditRecord :=
    { incident_id := incident.incident_id,
      action := .auto_resolution_attempted,
      confidence_score := some incident.confidence_score }
  let verdict := can_auto_resolve config incident
  if verdict.1 then
    let sw := execute_resolution_steps beh incident w
    let t1w := sw.2.utcnow
    let t2w := t1w.2.utcnow
    let incident1 : Incident :=
      { incident with
          status := .auto_resolved,
          auto_resolved := true,
          resolved_at := some t1w.1,
          resolution_steps := sw.1,
          updated_at := t2w.1 }
    let successRec : AuditRecord :=
      { incident_id := incident.incident_id,
        action := .auto_resolution_success,
        confidence_score := some incident.confidence_score }
    match notif.notifyExc with
    | some e =>
        let failedRec : AuditRecord :=
          { incident_id := incident.incident_id,
            action := .auto_resolution_failed,
            confidence_score := some incident.confidence_score,
            success := false,
            error_message := some ("Failed to auto-resolve incident: " ++ e) }
        { response :=
            { incident_id := incident.incident_id,
              success := false,
              message := "Failed to auto-resolve incident: " ++ e,
              resolution_steps := [],
              resolved_at := none },
          incident := incident1,
          audit := [attemptRec, successRec, failedRec],
          notified := [],
          world := t2w.2 }
    | none =>
        let notifSentRec : AuditRecord :=
          { incident_id := incident.incident_id,
            action := .notification_sent }
        { response :=
            { incident_id := incident.incident_id,
              success := true,
              message := "Incident successfully auto-resolved",
              resolution_steps := sw.1,
              resolved_at := incident1.resolved_at },
          incident := incident1,
          audit := [attemptRec, successRec, notifSentRec],
          notified := [incident.incident_id],
          world := t2w.2 }
  else
    let skippedRec : AuditRecord :=
      { incident_id := incident.incident_id,
        action := .auto_resolution_skipped,
        confidence_score := some incident.confidence_score,
        reason := some verdict.2.message }
    { response :=
        { incident_id := incident.incident_id,
          success := false,
          message := "Auto-resolution skipped: " ++ verdict.2.message,
          resolution_steps := [],
          resolved_at := none },
      incident := incident,
      audit := [attemptRec, skippedRec],
      notified := [],
      world := w }

/-- `ConfigUpdateRequest` from src/src/models/config.py lines 51-56. -/
structure ConfigUpdateRequest where
  global_enabled : Option Bool := none
  default_confidence_threshold : Option Rat := none
  category_config : Option CategoryConfig := none
deriving DecidableEq

/-- The pydantic validation performed when a `ConfigUpdateRequest` is parsed,
before `ConfigService.update_config` ever runs: the optional default
threshold carries `ge=0.5, le=1.0`, and a supplied `CategoryConfig` must
itself be constructible (its own field bounds plus `validate_threshold`). -/
def ConfigUpdateRequest.constructible (r : ConfigUpdateRequest) : Bool :=
  (match r.default_confidence_threshold with
   | none => true
   | some t => decide (Rat.mk' 1 2 ≤ t) && decide (t ≤ 1)) &&
  (match r.category_config with
   | none => true
   | some cc => decide cc.constructible)

/-- The state of one `ConfigService` instance plus its observable effects:
the held `AutoResolutionConfig`, the audit records written so far, and the
kill-switch notifications pushed to the notification sink (recorded as the
acting identity).  `has_notification_service` models the `Optional`
constructor argument (src/src/services/config_service.py lines 26-32). -/
structure ConfigServiceState where
  config : AutoResolutionConfig
  audit : List AuditRecord := []
  notifications : List String := []
  has_notification_service : Bool := true
deriving DecidableEq

/-- The closed enumeration of incident categories, in declaration order. -/
def allCategories : List IncidentCategory :=
  [.network, .database, .application, .security, .infrastructure,
   .user_access, .ios_upgrade]

/-- `ConfigService._initialize_default_category_configs`
(src/src/services/config_service.py lines 41-54). -/
def initialize_default_category_configs :
    List (IncidentCategory × CategoryConfig) :=
  allCategories.map fun c =>
    (c, { category := c, auto_resolution_enabled := true,
          confidence_threshold := Rat.mk' 9 10, max_retry_attempts := 3,
          notification_required := true })

/-- The configuration built in `ConfigService.__init__`
(src/src/services/config_service.py lines 34-39). -/
def ConfigService.initialState : ConfigServiceState :=
  { config :=
      { global_enabled := true,
        default_confidence_threshold := Rat.mk' 9 10,
        category_configs := initialize_default_category_configs } }

/-- `ConfigService.update_config` (src/src/services/config_service.py lines
60-127), applied to an already-parsed request.  Field by field in source
order: global flag (with kill-switch audit/notification on a strict
transition), default threshold, category config; one CONFIG_UPDATED audit
record when any change was requested. -/
def ConfigService.update_config (s : ConfigServiceState)
    (r : ConfigUpdateRequest) (actor : String) : ConfigServiceState :=
  let s1 :=
    match r.global_enabled with
    | none => s
    | some g =>
        let old := s.config.global_enabled
        let sA := { s with config := { s.config with global_enabled := g } }
        let actRec : AuditRecord :=
          { incident_id := "SYSTEM", action := .kill_switch_activated,
            actor := actor, reason := some "Set via configuration update" }
        let deactRec : AuditRecord :=
          { incident_id := "SYSTEM", action := .kill_switch_deactivated,
            actor := actor }
        if !g && old then
          let sB := { sA with audit := sA.audit ++ [actRec] }
          if sB.has_notification_service then
            { sB with notifications := sB.notifications ++ [actor] }
          else sB
        else if g && !old then
          { sA with audit := sA.audit ++ [deactRec] }
        else sA
  let s2 :=
    match r.default_confidence_threshold with
    | none => s1
    | some t =>
        { s1 with config := { s1.config with default_confidence_threshold := t } }
  let s3 :=
    match r.category_config with
    | none => s2
    | some cc =>
        { s2 with config := { s2.config with
            category_configs := insertCategory s2.config.category_configs cc.category cc } }
  let updRec : AuditRecord :=
    { incident_id := "SYSTEM", action := .config_updated, actor := actor }
  if r.global_enabled.isSome || r.default_confidence_threshold.isSome
      || r.category_config.isSome then
    { s3 with audit := s3.audit ++ [updRec] }
  else s3

/-- The policy-update entry point as exposed through the API layer
(src/src/api/endpoints.py lines 168-181): the request is parsed and
validated by pydantic first; only a request that validates reaches
`update_config`.  Returns the resulting state and `some error` when the
request was rejected — in which case the state is returned unchanged. -/
def ConfigService.handle_update_request (s : ConfigServiceState)
    (r : ConfigUpdateRequest) (actor : String) :
    ConfigServiceState × Option String :=
  if r.constructible then (ConfigService.update_config s r actor, none)
  else (s, some "ValidationError")

/-- `ConfigService.activate_kill_switch`
(src/src/services/config_service.py lines 129-161): sets the flag false,
audits, and pushes a notification whenever a sink is attached — with no
check of the previous flag value. -/
def ConfigService.activate_kill_switch (s : ConfigServiceState)
    (actor reason : String) : ConfigServiceState :=
  let sA := { s with config := { s.config with global_enabled := false } }
  let actRec : AuditRecord :=
    { incident_id := "SYSTEM", action := .kill_switch_activated,
      actor := actor, reason := some reason }
  let sB := { sA with audit := sA.audit ++ [actRec] }
  if sB.has_notification_service then
    { sB with notifications := sB.notifications ++ [actor] }
  else sB

/-- `ConfigService.deactivate_kill_switch`
(src/src/services/config_service.py lines 163-183): sets the flag true and
audits; it never pushes a notification. -/
def ConfigService.deactivate_kill_switch (s : ConfigServiceState)
    (actor : String) : ConfigServiceState :=
  let sA := { s with config := { s.config with global_enabled := true } }
  let deactRec : AuditRecord :=
    { incident_id := "SYSTEM", action := .kill_switch_deactivated,
      actor := actor }
  { sA with audit := sA.audit ++ [deactRec] }

/-- `ConfigService.get_category_config`
(src/src/services/config_service.py lines 185-193): the configured entry, or
`CategoryConfig(category=category)` — a value built from the model's static
field defaults — when the category is absent. -/
def ConfigService.get_category_config (s : ConfigServiceState)
    (category : IncidentCategory) : CategoryConfig :=
  match lookupCategory s.config.category_configs category with
  | some cc => cc
  | none => { category := category }

/-- If the gate allows an incident, the global flag must be on (the override
check is evaluated first). -/
theorem allowed_global_enabled {config : AutoResolutionConfig}
    {incident : Incident}
    (h : (can_auto_resolve config incident).1 = true) :
    config.global_enabled = true := by
  cases hg : config.global_enabled
  · simp [can_auto_resolve, hg] at h
  · rfl

/-- With the flag on, a terminal-status incident is denied with the
ALREADY_TERMINAL reason. -/
theorem can_auto_resolve_terminal {config : AutoResolutionConfig}
    {incident : Incident}
    (hg : config.global_enabled = true)
    (ht : isTerminal incident.status = true) :
    can_auto_resolve config incident
      = (false, DenyReason.already_terminal incident.status) := by
  simp [can_auto_resolve, hg, ht]

/-- The step loop produces exactly one `ResolutionStep` per template entry. -/
theorem execute_steps_loop_length (beh : Nat → Option String) :
    ∀ (l : List (String × String)) (k : Nat) (w : World),
      (execute_steps_loop beh l k w).1.length = l.length := by
  intro l
  induction l with
  | nil => intro k w; rfl
  | cons p rest ih =>
      intro k w
      obtain ⟨desc, act⟩ := p
      simp [execute_steps_loop, ih]

/-- Claim C2: whenever gating denies, `resolve_incident` returns
success=false with an empty step list and leaves the incident unmodified;
and after one successful resolve, a second resolve of the same incident is
denied with reason ALREADY_TERMINAL, leaves the incident (hence the step
list of the first call) unchanged, and notifies nobody. -/
theorem resolve_incident_deny_frame_idempotent (config : AutoResolutionConfig)
    (notif notif2 : NotificationSink) (beh beh2 : Nat → Option String)
    (incident : Incident) (w w2 : World) :
    ((can_auto_resolve config incident).1 = false →
      (resolve_incident config notif beh incident w).response.success = false ∧
      (resolve_incident config notif beh incident w).response.resolution_steps = [] ∧
      (resolve_incident config notif beh incident w).incident = incident)
    ∧ ((can_auto_resolve config incident).1 = true → notif.notifyExc = none →
      (resolve_incident config notif beh incident w).response.success = true ∧
      can_auto_resolve config (resolve_incident config notif beh incident w).incident
        = (false, DenyReason.already_terminal IncidentStatus.auto_resolved) ∧
      (resolve_incident config notif2 beh2
        (resolve_incident config notif beh incident w).incident w2).response.success
        = false ∧
      (resolve_incident config notif2 beh2
        (resolve_incident config notif beh incident w).incident w2).response.resolution_steps
        = [] ∧
      (resolve_incident config notif2 beh2
        (resolve_incident config notif beh incident w).incident w2).incident
        = (resolve_incident config notif beh incident w).incident ∧
      (resolve_incident config notif2 beh2
        (resolve_incident config notif beh incident w).incident w2).notified
        = []) := by
  constructor
  · intro hdeny
    refine ⟨?_, ?_, ?_⟩ <;> simp [resolve_incident, hdeny]
  · intro hallow hnx
    have hg := allowed_global_enabled hallow
    have hsucc1 :
        (resolve_incident config notif beh incident w).response.success = true := by
      simp [resolve_incident, hallow, hnx]
    have hpost :
        (resolve_incident config notif beh incident w).incident.status
          = IncidentStatus.auto_resolved := by
      simp [resolve_incident, hallow, hnx]
    generalize hO : resolve_incident config notif beh incident w = out1
      at hsucc1 hpost ⊢
    have hterm := @can_auto_resolve_terminal config out1.incident hg
      (by rw [hpost]; rfl)
    rw [hpost] at hterm
    have hdeny2 : (can_auto_resolve config out1.incident).1 = false := by
      rw [hterm]
    refine ⟨hsucc1, hterm, ?_, ?_, ?_, ?_⟩ <;> simp [resolve_incident, hdeny2]

/-- A notification sink that behaves like the reference implementation. -/
def okSink : NotificationSink := {}

/-- Step behaviour where every opaque action returns normally. -/
def allOkSteps : Nat → Option String := fun _ => none

/-- Step behaviour where every opaque action raises. -/
def allFailSteps : Nat → Option String := fun _ => some "step error"

/-- A concrete world value. -/
def sampleWorld : World := { tick := 0, uuidOf := fun _ => "uuid" }

/-- Witness for claim C2 at concrete inputs: a low-confidence incident is
denied and untouched, and a successfully resolved incident is denied on the
second attempt with everything unchanged. -/
theorem resolve_incident_deny_frame_idempotent_witness :
    ((resolve_incident sampleDefaultConfig okSink allOkSteps
        { sampleIncident with confidence_score := Rat.mk' 13 20 }
        sampleWorld).response.success = false ∧
      (resolve_incident sampleDefaultConfig okSink allOkSteps
        { sampleIncident with confidence_score := Rat.mk' 13 20 }
        sampleWorld).response.resolution_steps = [] ∧
      (resolve_incident sampleDefaultConfig okSink allOkSteps
        { sampleIncident with confidence_score := Rat.mk' 13 20 }
        sampleWorld).incident
        = { sampleIncident with confidence_score := Rat.mk' 13 20 })
    ∧ ((resolve_incident sampleDefaultConfig okSink allOkSteps sampleIncident
        sampleWorld).response.success = true ∧
      can_auto_resolve sampleDefaultConfig
        (resolve_incident sampleDefaultConfig okSink allOkSteps sampleIncident
          sampleWorld).incident
        = (false, DenyReason.already_terminal IncidentStatus.auto_resolved) ∧
      (resolve_incident sampleDefaultConfig okSink allOkSteps
        (resolve_incident sampleDefaultConfig okSink allOkSteps sampleIncident
          sampleWorld).incident sampleWorld).response.success = false ∧
      (resolve_incident sampleDefaultConfig okSink allOkSteps
        (resolve_incident sampleDefaultConfig okSink allOkSteps sampleIncident
          sampleWorld).incident sampleWorld).response.resolution_steps = [] ∧
      (resolve_incident sampleDefaultConfig okSink allOkSteps
        (resolve_incident sampleDefaultConfig okSink allOkSteps sampleIncident
          sampleWorld).incident sampleWorld).incident
        = (resolve_incident sampleDefaultConfig okSink allOkSteps sampleIncident
          sampleWorld).incident ∧
      (resolve_incident sampleDefaultConfig okSink allOkSteps
        (resolve_incident sampleDefaultConfig okSink allOkSteps sampleIncident
          sampleWorld).incident sampleWorld).notified = []) :=
  ⟨(resolve_incident_deny_frame_idempotent sampleDefaultConfig okSink okSink
      allOkSteps allOkSteps
      { sampleIncident with confidence_score := Rat.mk' 13 20 }
      sampleWorld sampleWorld).1 (by decide),
   (resolve_incident_deny_frame_idempotent sampleDefaultConfig okSink okSink
      allOkSteps allOkSteps sampleIncident sampleWorld sampleWorld).2
      (by decide) rfl⟩

/-- Claim C3: an allowed incident with a normally-returning notification sink
yields success=true, the incident marked AUTO_RESOLVED, and a step list of
the category template's length — 3 for network/database/application, 5 for
ios_upgrade, one generic health-check step for every other category — with
resolved_at set in the response exactly when success is true, regardless of
how many individual steps failed. -/
theorem resolve_incident_allow_shape (config : AutoResolutionConfig)
    (notif : NotificationSink) (beh : Nat → Option String)
    (incident : Incident) (w : World) :
    (notif.notifyExc = none → (can_auto_resolve config incident).1 = true →
      (resolve_incident config notif beh incident w).response.success = true ∧
      (resolve_incident config notif beh incident w).incident.status
        = IncidentStatus.auto_resolved ∧
      (resolve_incident config notif beh incident w).response.resolution_steps.length
        = (get_resolution_steps_for_category incident.category).length)
    ∧ (get_resolution_steps_for_category IncidentCategory.network).length = 3
    ∧ (get_resolution_steps_for_category IncidentCategory.database).length = 3
    ∧ (get_resolution_steps_for_category IncidentCategory.application).length = 3
    ∧ (get_resolution_steps_for_category IncidentCategory.ios_upgrade).length = 5
    ∧ get_resolution_steps_for_category IncidentCategory.security
        = [("Generic health check", "health_check")]
    ∧ get_resolution_steps_for_category IncidentCategory.infrastructure
        = [("Generic health check", "health_check")]
    ∧ get_resolution_steps_for_category IncidentCategory.user_access
        = [("Generic health check", "health_check")]
    ∧ (resolve_incident config notif beh incident w).response.resolved_at.isSome
        = (resolve_incident config notif beh incident w).response.success := by
  refine ⟨?_, rfl, rfl, rfl, rfl, rfl, rfl, rfl, ?_⟩
  · intro hnx hallow
    refine ⟨?_, ?_, ?_⟩ <;>
      simp [resolve_incident, hallow, hnx, execute_resolution_steps,
        execute_steps_loop_length]
  · cases hA : (can_auto_resolve config incident).1
    · simp [resolve_incident, hA]
    · cases hnx : notif.notifyExc
      · simp [resolve_incident, hA, hnx]
      · simp [resolve_incident, hA, hnx]

/-- Witness for claim C3: the allowed database incident resolved with every
single step failing still returns success=true, AUTO_RESOLVED, and the
3-entry template length. -/
theorem resolve_incident_allow_shape_witness :
    (resolve_incident sampleDefaultConfig okSink allFailSteps sampleIncident
      sampleWorld).response.success = true ∧
    (resolve_incident sampleDefaultConfig okSink allFailSteps sampleIncident
      sampleWorld).incident.status = IncidentStatus.auto_resolved ∧
    (resolve_incident sampleDefaultConfig okSink allFailSteps sampleIncident
      sampleWorld).response.resolution_steps.length
      = (get_resolution_steps_for_category sampleIncident.category).length :=
  (resolve_incident_allow_shape sampleDefaultConfig okSink allFailSteps
    sampleIncident sampleWorld).1 rfl (by decide)

/-- A fully-executed step record: it has an execution timestamp, a definite
outcome, and, when the outcome is failure, a captured error message. -/
def stepDefinite (step : ResolutionStep) : Bool :=
  step.executed_at.isSome &&
    (match step.success with
     | none => false
     | some true => true
     | some false => step.error_message.isSome)

/-- Every step the loop produces is fully executed. -/
theorem execute_steps_loop_definite (beh : Nat → Option String) :
    ∀ (l : List (String × String)) (k : Nat) (w : World),
      (execute_steps_loop beh l k w).1.all stepDefinite = true := by
  intro l
  induction l with
  | nil => intro k w; rfl
  | cons p rest ih =>
      intro k w
      obtain ⟨desc, act⟩ := p
      cases hbeh : beh k <;>
        simp [execute_steps_loop, hbeh, stepDefinite, ih]

/-- Claim C10: for an incident allowed by gating, every `ResolutionStep` in
the returned step list (and in the step list attached to the incident) is
fully executed: execution timestamp set, outcome definitely succeeded or
failed, and a failed step carries the captured error detail. -/
theorem resolution_steps_fully_executed (config : AutoResolutionConfig)
    (notif : NotificationSink) (beh : Nat → Option String)
    (incident : Incident) (w : World)
    (hallow : (can_auto_resolve config incident).1 = true) :
    (resolve_incident config notif beh incident w).response.resolution_steps.all
      stepDefinite = true ∧
    (resolve_incident config notif beh incident w).incident.resolution_steps.all
      stepDefinite = true := by
  cases hnx : notif.notifyExc
  · constructor <;>
      simp [resolve_incident, hallow, hnx, execute_resolution_steps,
        execute_steps_loop_definite]
  · constructor <;>
      simp [resolve_incident, hallow, hnx, execute_resolution_steps,
        execute_steps_loop_definite]

/-- Witness for claim C10: concrete evaluation on the allowed database
incident with every step raising. -/
theorem resolution_steps_fully_executed_witness :
    (resolve_incident sampleDefaultConfig okSink allFailSteps sampleIncident
      sampleWorld).response.resolution_steps.all stepDefinite = true ∧
    (resolve_incident sampleDefaultConfig okSink allFailSteps sampleIncident
      sampleWorld).incident.resolution_steps.all stepDefinite = true :=
  resolution_steps_fully_executed sampleDefaultConfig okSink allFailSteps
    sampleIncident sampleWorld (by decide)

/-- Claim C4: a policy-update request carrying a confidence threshold outside
[0.5, 1.0] — default or category — is rejected by validation before
`update_config` runs, so the call returns the existing state fully intact
with none of the other requested changes applied. -/
theorem update_config_rejects_out_of_range_threshold (s : ConfigServiceState)
    (r : ConfigUpdateRequest) (actor : String)
    (hbad : (∃ t, r.default_confidence_threshold = some t ∧
              (t < Rat.mk' 1 2 ∨ 1 < t)) ∨
            (∃ cc, r.category_config = some cc ∧
              (cc.confidence_threshold < Rat.mk' 1 2 ∨
                1 < cc.confidence_threshold))) :
    ConfigService.handle_update_request s r actor
      = (s, some "ValidationError") := by
  have hval : r.constructible = false := by
    unfold ConfigUpdateRequest.constructible
    rcases hbad with ⟨t, ht, hb | hb⟩ | ⟨cc, hcc, hb⟩
    · rw [ht]
      have hd : decide (Rat.mk' 1 2 ≤ t) = false :=
        decide_eq_false (not_le.mpr hb)
      simp [hd]
    · rw [ht]
      have hd : decide (t ≤ 1) = false := decide_eq_false (not_le.mpr hb)
      simp [hd]
    · rw [hcc]
      have hd : decide cc.constructible = false := by
        apply decide_eq_false
        intro hx
        obtain ⟨h0, h1, hv, hr⟩ := hx
        rcases hb with h | h
        · exact hv h
        · exact absurd h1 (not_le.mpr h)
      simp [hd]
  simp [ConfigService.handle_update_request, hval]

/-- A request whose default threshold 0.3 violates the safety floor. -/
def badThresholdRequest : ConfigUpdateRequest :=
  { default_confidence_threshold := some (Rat.mk' 3 10) }

/-- Witness for claim C4: the 0.3 default-threshold request is rejected and
the initial state survives unchanged. -/
theorem update_config_rejects_out_of_range_threshold_witness :
    ConfigService.handle_update_request ConfigService.initialState
      badThresholdRequest "admin"
      = (ConfigService.initialState, some "ValidationError") :=
  update_config_rejects_out_of_range_threshold ConfigService.initialState
    badThresholdRequest "admin"
    (Or.inl ⟨Rat.mk' 3 10, rfl, Or.inl (by decide)⟩)

/-- Claim C5 counterexample: activating the kill switch when the override is
already active — the flag is already false, so no transition happens —
pushes a second notification to the sink (the claim forbids this double
notification); and deactivating, which is a genuine false→true transition,
pushes no notification at all. -/
theorem activate_kill_switch_double_notify_cex :
    (ConfigService.activate_kill_switch ConfigService.initialState "admin"
      "maintenance").config.global_enabled = false ∧
    (ConfigService.activate_kill_switch
      (ConfigService.activate_kill_switch ConfigService.initialState "admin"
        "maintenance") "admin" "again").notifications.length = 2 ∧
    (ConfigService.deactivate_kill_switch
      (ConfigService.activate_kill_switch ConfigService.initialState "admin"
        "maintenance") "admin").notifications.length = 1 := by
  decide

/-- Claim C5 (amended): with a notification sink attached,
`activate_kill_switch` always pushes exactly one notification regardless of
the previous flag value — so a no-op activation does notify again — and
`deactivate_kill_switch` never notifies; only `update_config` pushes a
notification exactly on a strict true→false transition of the flag. -/
theorem kill_switch_notification_behavior (s : ConfigServiceState)
    (actor reason : String) (hns : s.has_notification_service = true) :
    (ConfigService.activate_kill_switch s actor reason).notifications
      = s.notifications ++ [actor] ∧
    (ConfigService.activate_kill_switch s actor reason).config.global_enabled
      = false ∧
    (ConfigService.deactivate_kill_switch s actor).notifications
      = s.notifications ∧
    (ConfigService.deactivate_kill_switch s actor).config.global_enabled
      = true ∧
    (ConfigService.update_config s { global_enabled := some false } actor).notifications
      = (if s.config.global_enabled then s.notifications ++ [actor]
          else s.notifications) ∧
    (ConfigService.update_config s { global_enabled := some true } actor).notifications
      = s.notifications := by
  refine ⟨?_, ?_, ?_, ?_, ?_, ?_⟩
  · simp [ConfigService.activate_kill_switch, hns]
  · simp [ConfigService.activate_kill_switch, hns]
  · simp [ConfigService.deactivate_kill_switch]
  · simp [ConfigService.deactivate_kill_switch]
  · cases hg : s.config.global_enabled <;>
      simp [ConfigService.update_config, hg, hns]
  · cases hg : s.config.global_enabled <;>
      simp [ConfigService.update_config, hg, hns]

/-- Witness for the amended claim C5, at the initial state. -/
theorem kill_switch_notification_behavior_witness :
    (ConfigService.activate_kill_switch ConfigService.initialState "ops"
      "drill").notifications
      = ConfigService.initialState.notifications ++ ["ops"] ∧
    (ConfigService.activate_kill_switch ConfigService.initialState "ops"
      "drill").config.global_enabled = false ∧
    (ConfigService.deactivate_kill_switch ConfigService.initialState
      "ops").notifications = ConfigService.initialState.notifications ∧
    (ConfigService.deactivate_kill_switch ConfigService.initialState
      "ops").config.global_enabled = true ∧
    (ConfigService.update_config ConfigService.initialState
      { global_enabled := some false } "ops").notifications
      = (if ConfigService.initialState.config.global_enabled then
          ConfigService.initialState.notifications ++ ["ops"]
         else ConfigService.initialState.notifications) ∧
    (ConfigService.update_config ConfigService.initialState
      { global_enabled := some true } "ops").notifications
      = ConfigService.initialState.notifications :=
  kill_switch_notification_behavior ConfigService.initialState "ops" "drill"
    rfl

/-- A notification sink whose delivery raises. -/
def failingSink : NotificationSink := { notifyExc := some "smtp relay unreachable" }

/-- Claim C6 counterexample: on an incident the gate allows, a failure raised
by the notification sink's notify call flips the resolution result — resolve
returns success=false, not the success=true the claim requires, and nothing
was delivered. -/
theorem notify_failure_flips_success_cex :
    (can_auto_resolve sampleDefaultConfig sampleIncident).1 = true ∧
    (resolve_incident sampleDefaultConfig failingSink allOkSteps sampleIncident
      sampleWorld).response.success = false ∧
    (resolve_incident sampleDefaultConfig failingSink allOkSteps sampleIncident
      sampleWorld).notified = [] := by
  decide

/-- Claim C6 (amended): the notification call sits inside the orchestration
try block, so a failure it raises is caught by the generic handler and fails
the resolution result: resolve returns success=false with the error message
and no notification is recorded — there is no log-and-continue isolation of
notification failures. -/
theorem notify_failure_fails_resolution_result (config : AutoResolutionConfig)
    (notif : NotificationSink) (beh : Nat → Option String)
    (incident : Incident) (w : World) (e : String)
    (hallow : (can_auto_resolve config incident).1 = true)
    (hnx : notif.notifyExc = some e) :
    (resolve_incident config notif beh incident w).response.success = false ∧
    (resolve_incident config notif beh incident w).response.message
      = "Failed to auto-resolve incident: " ++ e ∧
    (resolve_incident config notif beh incident w).notified = [] := by
  refine ⟨?_, ?_, ?_⟩ <;> simp [resolve_incident, hallow, hnx]

/-- Witness for the amended claim C6 at the concrete failing sink. -/
theorem notify_failure_fails_resolution_result_witness :
    (resolve_incident sampleDefaultConfig failingSink allOkSteps sampleIncident
      sampleWorld).response.success = false ∧
    (resolve_incident sampleDefaultConfig failingSink allOkSteps sampleIncident
      sampleWorld).response.message
      = "Failed to auto-resolve incident: " ++ "smtp relay unreachable" ∧
    (resolve_incident sampleDefaultConfig failingSink allOkSteps sampleIncident
      sampleWorld).notified = [] :=
  notify_failure_fails_resolution_result sampleDefaultConfig failingSink
    allOkSteps sampleIncident sampleWorld "smtp relay unreachable" (by decide)
    rfl

/-- A critical open network incident used for the pipeline-failure claims. -/
def sampleIncident2 : Incident :=
  { incident_id := "INC-007"
    title := "Switch port flapping"
    description := "Intermittent packet loss on core switch"
    category := .network
    priority := .critical
    status := .open_
    confidence_score := Rat.mk' 97 100
    created_by := "user321" }

/-- Claim C7 counterexample: under an orchestration-level exception (the
notification sink raising, outside the per-step try/catch) the incident is
NOT left unmodified: it started OPEN yet ends AUTO_RESOLVED while the call
reports success=false. -/
theorem orchestration_exception_mutates_incident_cex :
    sampleIncident2.status = IncidentStatus.open_ ∧
    (resolve_incident sampleDefaultConfig
      { notifyExc := some "notification pipeline crashed" } allOkSteps
      sampleIncident2 sampleWorld).response.success = false ∧
    (resolve_incident sampleDefaultConfig
      { notifyExc := some "notification pipeline crashed" } allOkSteps
      sampleIncident2 sampleWorld).incident.status
      = IncidentStatus.auto_resolved ∧
    (resolve_incident sampleDefaultConfig
      { notifyExc := some "notification pipeline crashed" } allOkSteps
      sampleIncident2 sampleWorld).incident ≠ sampleIncident2 := by
  decide

/-- Claim C7 (amended): an exception raised by the orchestration outside the
per-step try/catch — in this code only the sink calls of the success path
can raise there — is caught exactly once: the call returns normally with
success=false carrying the error message, an AUTO_RESOLUTION_FAILED audit
record is emitted after the attempt and success records, and the response
carries an empty step list with no resolved_at; but the incident is NOT left
in its pre-attempt state, because the status mutation precedes those calls:
it remains AUTO_RESOLVED with the executed steps attached. -/
theorem orchestration_exception_caught_once (config : AutoResolutionConfig)
    (notif : NotificationSink) (beh : Nat → Option String)
    (incident : Incident) (w : World) (e : String)
    (hallow : (can_auto_resolve config incident).1 = true)
    (hnx : notif.notifyExc = some e) :
    (resolve_incident config notif beh incident w).response.success = false ∧
    (resolve_incident config notif beh incident w).response.resolution_steps
      = [] ∧
    (resolve_incident config notif beh incident w).response.resolved_at
      = none ∧
    (resolve_incident config notif beh incident w).audit.map AuditRecord.action
      = [AuditAction.auto_resolution_attempted,
         AuditAction.auto_resolution_success,
         AuditAction.auto_resolution_failed] ∧
    (resolve_incident config notif beh incident w).incident.status
      = IncidentStatus.auto_resolved ∧
    (resolve_incident config notif beh incident w).incident.auto_resolved
      = true ∧
    (resolve_incident config notif beh incident w).incident.resolution_steps.length
      = (get_resolution_steps_for_category incident.category).length := by
  refine ⟨?_, ?_, ?_, ?_, ?_, ?_, ?_⟩ <;>
    simp [resolve_incident, hallow, hnx, execute_resolution_steps,
      execute_steps_loop_length]

/-- Witness for the amended claim C7 at the concrete network incident. -/
theorem orchestration_exception_caught_once_witness :
    (resolve_incident sampleDefaultConfig
      { notifyExc := some "notification pipeline crashed" } allOkSteps
      sampleIncident2 sampleWorld).response.success = false ∧
    (resolve_incident sampleDefaultConfig
      { notifyExc := some "notification pipeline crashed" } allOkSteps
      sampleIncident2 sampleWorld).response.resolution_steps = [] ∧
    (resolve_incident sampleDefaultConfig
      { notifyExc := some "notification pipeline crashed" } allOkSteps
      sampleIncident2 sampleWorld).response.resolved_at = none ∧
    (resolve_incident sampleDefaultConfig
      { notifyExc := some "notification pipeline crashed" } allOkSteps
      sampleIncident2 sampleWorld).audit.map AuditRecord.action
      = [AuditAction.auto_resolution_attempted,
         AuditAction.auto_resolution_success,
         AuditAction.auto_resolution_failed] ∧
    (resolve_incident sampleDefaultConfig
      { notifyExc := some "notification pipeline crashed" } allOkSteps
      sampleIncident2 sampleWorld).incident.status
      = IncidentStatus.auto_resolved ∧
    (resolve_incident sampleDefaultConfig
      { notifyExc := some "notification pipeline crashed" } allOkSteps
      sampleIncident2 sampleWorld).incident.auto_resolved = true ∧
    (resolve_incident sampleDefaultConfig
      { notifyExc := some "notification pipeline crashed" } allOkSteps
      sampleIncident2 sampleWorld).incident.resolution_steps.length
      = (get_resolution_steps_for_category sampleIncident2.category).length :=
  orchestration_exception_caught_once sampleDefaultConfig
    { notifyExc := some "notification pipeline crashed" } allOkSteps
    sampleIncident2 sampleWorld "notification pipeline crashed" (by decide) rfl

/-- A high-confidence in-progress security incident. -/
def sampleIncident3 : Incident :=
  { incident_id := "INC-008"
    title := "Suspicious login burst"
    description := "Multiple failed logins followed by success"
    category := .security
    priority := .high
    status := .in_progress
    confidence_score := Rat.mk' 24 25
    created_by := "user555" }

/-- Claim C8 counterexample: a successful resolve also mutates fields other
than status, resolved_at and the step list — the auto_resolved flag flips to
true and the updated_at timestamp changes. -/
theorem resolve_mutates_other_fields_cex :
    sampleIncident3.auto_resolved = false ∧
    sampleIncident3.updated_at = 0 ∧
    (resolve_incident sampleDefaultConfig okSink allOkSteps sampleIncident3
      sampleWorld).incident.auto_resolved = true ∧
    (resolve_incident sampleDefaultConfig okSink allOkSteps sampleIncident3
      sampleWorld).incident.updated_at = 3 := by
  decide

/-- The incident fields `resolve_incident` never touches. -/
def frameFields (i : Incident) :=
  (i.incident_id, i.title, i.description, i.category, i.priority,
   i.incident_type, i.source, i.confidence_score, i.detection_confidence,
   i.classification_confidence, i.auto_detected, i.created_by, i.created_at,
   i.detected_at, i.tags)

/-- Claim C8 (amended): a resolve call mutates at most the incident's status,
auto_resolved flag, resolution timestamp, updated_at timestamp and step
list; every other field — identity, text, category, priority, type, source,
the three confidence scores, auto_detected, creator, created_at, detected_at
and tags — is unchanged on the deny path, the allow path and the
orchestration-exception path. -/
theorem resolve_incident_frame (config : AutoResolutionConfig)
    (notif : NotificationSink) (beh : Nat → Option String)
    (incident : Incident) (w : World) :
    frameFields (resolve_incident config notif beh incident w).incident
      = frameFields incident := by
  cases hA : (can_auto_resolve config incident).1
  · simp [resolve_incident, frameFields, hA]
  · cases hnx : notif.notifyExc <;>
      simp [resolve_incident, frameFields, hA, hnx]

/-- A policy with a raised default threshold and an empty category mapping. -/
def raisedDefaultState : ConfigServiceState :=
  { config := { global_enabled := true,
                default_confidence_threshold := Rat.mk' 19 20,
                category_configs := [] } }

/-- Claim C9 counterexample: for a category absent from the mapping of a
policy whose default threshold was raised to 0.95, the gating evaluator uses
0.95 while get_category_config returns the static model default 0.90 — the
derived policy does NOT agree with the threshold the gate uses. -/
theorem absent_category_policy_disagreement_cex :
    lookupCategory raisedDefaultState.config.category_configs
      IncidentCategory.network = none ∧
    raisedDefaultState.config.get_confidence_threshold IncidentCategory.network
      = Rat.mk' 19 20 ∧
    (ConfigService.get_category_config raisedDefaultState
      IncidentCategory.network).confidence_threshold = Rat.mk' 9 10 ∧
    ¬ (ConfigService.get_category_config raisedDefaultState
        IncidentCategory.network).confidence_threshold
      = raisedDefaultState.config.get_confidence_threshold
          IncidentCategory.network := by
  decide

/-- Claim C9 (amended): a category absent from the mapping gates as enabled
(whenever the global flag is on) with the current default threshold, and
get_category_config returns `CategoryConfig(category=category)` — a value
built from the model's static field defaults, threshold 0.90 — which agrees
with the threshold the gating evaluator uses only when the policy's default
threshold is (still) 0.90. -/
theorem absent_category_default_behavior (s : ConfigServiceState)
    (cat : IncidentCategory)
    (habs : lookupCategory s.config.category_configs cat = none) :
    s.config.get_confidence_threshold cat
      = s.config.default_confidence_threshold ∧
    (s.config.global_enabled = true →
      s.config.is_enabled_for_category cat = true) ∧
    ConfigService.get_category_config s cat = { category := cat } ∧
    (ConfigService.get_category_config s cat).confidence_threshold
      = Rat.mk' 9 10 ∧
    (s.config.default_confidence_threshold = Rat.mk' 9 10 →
      (ConfigService.get_category_config s cat).confidence_threshold
        = s.config.get_confidence_threshold cat) := by
  refine ⟨?_, ?_, ?_, ?_, ?_⟩
  · simp [AutoResolutionConfig.get_confidence_threshold, habs]
  · intro hg
    simp [AutoResolutionConfig.is_enabled_for_category, hg, habs]
  · simp [ConfigService.get_category_config, habs]
  · simp [ConfigService.get_category_config, habs]
  · intro hd
    simp [ConfigService.get_category_config,
      AutoResolutionConfig.get_confidence_threshold, habs, hd]

/-- A service state holding the pydantic-default policy: flag on, default
threshold 0.90, empty category mapping. -/
def emptyMappingState : ConfigServiceState := { config := {} }

/-- Witness for the amended claim C9, at the empty-mapping default state
where all hypotheses (absence, flag on, default still 0.90) hold. -/
theorem absent_category_default_behavior_witness :
    emptyMappingState.config.get_confidence_threshold IncidentCategory.network
      = emptyMappingState.config.default_confidence_threshold ∧
    emptyMappingState.config.is_enabled_for_category IncidentCategory.network
      = true ∧
    ConfigService.get_category_config emptyMappingState IncidentCategory.network
      = { category := IncidentCategory.network } ∧
    (ConfigService.get_category_config emptyMappingState
      IncidentCategory.network).confidence_threshold = Rat.mk' 9 10 ∧
    (ConfigService.get_category_config emptyMappingState
      IncidentCategory.network).confidence_threshold
      = emptyMappingState.config.get_confidence_threshold
          IncidentCategory.network :=
  have h := absent_category_default_behavior emptyMappingState
    IncidentCategory.network rfl
  ⟨h.1, h.2.1 rfl, h.2.2.1, h.2.2.2.1, h.2.2.2.2 rfl⟩
